import Mathlib

/-!
Verification of `msticpy/datamodel/pivot.py` (the `Pivot` environment loader).

The Python module discovers query providers and TI-lookup providers from a
caller-supplied namespace mapping and/or an explicit provider list, stores
them in the dict `self._providers` keyed by `prov.environment` (for query
providers) or the literal string "TILookup" (for the TI-lookup provider),
and manages a default query time span through a `QueryTime` widget.

The embedding below models:
  * Python objects that matter to `isinstance` checks as the inductive
    `Provider` (a `QueryProvider` with its `environment` attribute, a
    `TILookup`, or any other object); the `id` field models object identity
    so that distinct instances can be told apart;
  * Python dicts as association lists with unique keys in insertion order
    (`Dict`), with `dictGet` / `dictInsert` / `dictUpdate` mirroring
    `d[k]`, `d[k] = v` and `d.update(...)`;
  * `TimeSpan` and the `QueryTime` widget (both live in modules of this
    repository outside the provided source tree) from the spec: a time span
    is an immutable (start, end) pair of timestamps, and a `QueryTime`
    built from `origin_time` / `before` / `after` / `units` yields
    `start = origin - before * unit` and `end = origin + after * unit`,
    while one built from a `timespan` yields that span (with the widget's
    default units, "day");
  * timestamps as `Int` seconds; `datetime.utcnow()` becomes an explicit
    `now : Int` argument on the operations that read the clock;
  * the three external registration helpers as recorded events
    (`RegCall`): the embedding keeps the trace of helper invocations that
    `__init__` performs.
-/

namespace MsticpyPivot

/-- Model of the Python objects the module inspects with `isinstance`:
a `QueryProvider` instance (carrying its `environment` attribute), a
`TILookup` instance, or any other object.  `id` models object identity. -/
inductive Provider where
  | queryProvider (environment : String) (id : Nat)
  | tiLookup (id : Nat)
  | otherObj (id : Nat)
deriving DecidableEq

/-- Embeds `isinstance(prov, QueryProvider)`. -/
def Provider.isQueryProvider : Provider → Bool
  | .queryProvider _ _ => true
  | _ => false

/-- Embeds `isinstance(prov, TILookup)`. -/
def Provider.isTILookup : Provider → Bool
  | .tiLookup _ => true
  | _ => false

/-- Embeds the attribute access `prov.environment`.  The module only reads
it on objects that passed the `isinstance(prov, QueryProvider)` filter, so
the value on the other constructors is irrelevant. -/
def Provider.environment : Provider → String
  | .queryProvider env _ => env
  | _ => ""

/-- A Python dict `Dict[str, Any]` restricted to provider values: an
association list in insertion order with unique keys (every dict in the
module is built from `{}` by item assignment and `update`). -/
abbrev Dict := List (String × Provider)

/-- Embeds dict lookup `d.get(k)`: the unique entry for `k`, if present. -/
def dictGet : Dict → String → Option Provider
  | [], _ => none
  | (k', v) :: d, k => if k = k' then some v else dictGet d k

/-- Embeds item assignment `d[k] = v` on a Python dict: replace the value
in place if the key is present (keeping its position), else append. -/
def dictInsert : Dict → String → Provider → Dict
  | [], k, v => [(k, v)]
  | (k', v') :: d, k, v =>
      if k' = k then (k, v) :: d else (k', v') :: dictInsert d k v

/-- Sequential item assignment of a list of entries.  `d.update(d2)` for a
dict `d2` built as a comprehension over an entry sequence is extensionally
the same (same final values and same insertion order) as assigning the
comprehension's entries one by one, which is what this function does. -/
def dictUpdate (d : Dict) (es : List (String × Provider)) : Dict :=
  es.foldl (fun d e => dictInsert d e.1 e.2) d

/-- The keys of a dict, in order. -/
def dictKeys (d : Dict) : List String := d.map Prod.fst

/-- The value the last entry of an entry sequence assigns to key `k`
(the "last assignment wins" value of a dict built from the sequence). -/
def lookupLast : List (String × Provider) → String → Option Provider
  | [], _ => none
  | e :: es, k =>
      match lookupLast es k with
      | some v => some v
      | none => if e.1 = k then some e.2 else none

/-- Modelled from the spec: `TimeSpan` (from `msticpy.common.timespan`,
not in the provided source tree) is an immutable (start, end) pair
bounding query ranges.  Timestamps are `Int` seconds. -/
structure TimeSpan where
  start : Int
  «end» : Int
deriving DecidableEq

/-- Modelled from the spec: the length in seconds of one time unit of the
`QueryTime` widget's rolling "N units before now" rule. -/
def unitSeconds (units : String) : Int :=
  if units = "second" then 1
  else if units = "minute" then 60
  else if units = "hour" then 3600
  else if units = "week" then 604800
  else 86400

/-- Modelled from the spec: the `QueryTime` widget (from
`msticpy.nbtools.nbwidgets`, not in the provided source tree) holds a time
range described by `start`, `end` and the `units` it was configured with. -/
structure QueryTime where
  start : Int
  «end» : Int
  units : String
deriving DecidableEq

/-- Modelled from the spec: `QueryTime(origin_time=o, before=b, after=a,
units=u)` describes the rolling window `[o - b*u, o + a*u]`. -/
def QueryTime.fromOrigin (origin before after : Int) (units : String) : QueryTime :=
  { start := origin - before * unitSeconds units
    «end» := origin + after * unitSeconds units
    units := units }

/-- Modelled from the spec: `QueryTime(timespan=ts)` describes exactly the
span `ts`; the widget's `units` keeps its default value, "day". -/
def QueryTime.fromTimespan (ts : TimeSpan) : QueryTime :=
  { start := ts.start, «end» := ts.«end», units := "day" }

/-- One invocation of an external registration helper, recorded as an
event (the helpers live outside the provided source tree and are opaque
collaborators per the spec). -/
inductive RegCall where
  | addDataQueriesToEntities (prov : Provider)
  | addIocQueriesToEntities (prov : Option Provider) (container : String)
  | registerPivotsFromConfig (container : String)
deriving DecidableEq

/-- Selects the `add_data_queries_to_entities` events of a trace. -/
def RegCall.isDataQueries : RegCall → Bool
  | .addDataQueriesToEntities _ => true
  | _ => false

/-- The state of a `Pivot` object: its `_query_time` widget and its
`_providers` registry. -/
structure PivotState where
  query_time : QueryTime
  providersDict : Dict
deriving DecidableEq

namespace Pivot

/-- Embeds `Pivot._set_default_query_time(units, before)`: build a
`QueryTime` with `origin_time=datetime.utcnow()`, the given `before`,
`after=0` and the given `units`. -/
def set_default_query_time (now : Int) (units : String) (before : Int) : QueryTime :=
  QueryTime.fromOrigin now before 0 units

/-- Embeds `Pivot._get_query_providers`: update the registry with a
dict comprehension `{prov.environment: prov for prov in src if
isinstance(prov, QueryProvider)}` over each truthy source; the `namespace`
source uses `namespace.values()`.  The entry sequence of each
comprehension: -/
def qpEntries (xs : List Provider) : List (String × Provider) :=
  (xs.filter Provider.isQueryProvider).map (fun p => (p.environment, p))

/-- Embeds `Pivot._get_query_providers(namespace, providers)`.  `ns` is
the optional namespace dict (`None` ↦ `none`); `provs` the optional
explicit provider iterable.  `if namespace:` / `if providers:` are Python
truthiness tests: `None` and the empty collection are falsy. -/
def get_query_providers (d : Dict) (ns : Option Dict) (provs : Option (List Provider)) :
    Dict :=
  let d1 :=
    match ns with
    | none => d
    | some nsd => if nsd.isEmpty then d else dictUpdate d (qpEntries (nsd.map Prod.snd))
  match provs with
  | none => d1
  | some l => if l.isEmpty then d1 else dictUpdate d1 (qpEntries l)

/-- Embeds the first block of `Pivot._get_provider_by_type`: if the
explicit iterable is truthy, `ti_provs = [prov for prov in providers if
isinstance(prov, provider_type)]`, and if that is truthy the result is
`ti_provs[0]` (the FIRST matching instance). -/
def ti_from_providers (provs : Option (List Provider)) : Option Provider :=
  match provs with
  | none => none
  | some l => if l.isEmpty then none else (l.filter Provider.isTILookup).head?

/-- Embeds the second block of `Pivot._get_provider_by_type`: if the
namespace is truthy, `ns_providers = [prov for prov in namespace.values()
if isinstance(prov, provider_type)]`, and if that is truthy the result is
`ns_providers[-1]` (the LAST matching instance). -/
def ti_from_namespace (ns : Option Dict) : Option Provider :=
  match ns with
  | none => none
  | some nsd =>
      if nsd.isEmpty then none
      else ((nsd.map Prod.snd).filter Provider.isTILookup).getLast?

/-- Embeds `Pivot._get_provider_by_type(TILookup, namespace, providers)`:
the explicit-list block returns first if it found something, otherwise
the namespace block is tried, otherwise `None`. -/
def get_provider_by_type (ns : Option Dict) (provs : Option (List Provider)) :
    Option Provider :=
  match ti_from_providers provs with
  | some p => some p
  | none => ti_from_namespace ns

/-- Embeds `TILookup()`: the default TI-lookup instance constructed when
none is found in either source. -/
def defaultTILookup : Provider := .tiLookup 0

/-- Embeds `Pivot._get_all_providers`: collect the query providers, then
`self._providers["TILookup"] = self._get_provider_by_type(...) or
TILookup()`. -/
def get_all_providers (ns : Option Dict) (provs : Option (List Provider)) : Dict :=
  let d := get_query_providers [] ns provs
  dictInsert d "TILookup" ((get_provider_by_type ns provs).getD defaultTILookup)

/-- Embeds the accessor `Pivot.start` (property). -/
def start (s : PivotState) : Int := s.query_time.start

/-- Embeds the accessor `Pivot.end` (property). -/
def «end» (s : PivotState) : Int := s.query_time.«end»

/-- Embeds the accessor `Pivot.timespan` (property, read):
`TimeSpan(start=self.start, end=self.end)`. -/
def timespan (s : PivotState) : TimeSpan :=
  { start := start s, «end» := «end» s }

/-- Embeds `Pivot._get_timespan`, the bound-method accessor handed to
`add_data_queries_to_entities` at construction: called on the state that
is current at call time, it returns
`TimeSpan(start=self.start, end=self.end)`. -/
def get_timespan (s : PivotState) : TimeSpan :=
  { start := start s, «end» := «end» s }

/-- Embeds the `Pivot.timespan` setter: replace `self._query_time` with
`QueryTime(timespan=timespan, label=...)`.  The trace component records
the external registration helpers the setter invokes (none: its body only
constructs the widget). -/
def timespan_set (s : PivotState) (ts : TimeSpan) : PivotState × List RegCall :=
  ({ s with query_time := QueryTime.fromTimespan ts }, [])

/-- Embeds `Pivot.get_provider(name)`: `self._providers.get(name)`. -/
def get_provider (s : PivotState) (name : String) : Option Provider :=
  dictGet s.providersDict name

/-- Embeds `Pivot.__init__(namespace, providers, timespan)`.  `now` is the
value `datetime.utcnow()` reads at construction time.  Returns the
constructed state together with the trace of registration-helper calls:
one `add_data_queries_to_entities(prov, self._get_timespan)` per
`QueryProvider` in `self._providers.values()`, then
`add_ioc_queries_to_entities(self.get_provider("TILookup"),
container="ti")`, then `register_pivots(..., container="other", ...)`. -/
def init (ns : Option Dict) (provs : Option (List Provider))
    (tsArg : Option TimeSpan) (now : Int) : PivotState × List RegCall :=
  let qt :=
    match tsArg with
    | some ts => QueryTime.fromTimespan ts
    | none => set_default_query_time now "day" 1
  let provsDict := get_all_providers ns provs
  let s : PivotState := { query_time := qt, providersDict := provsDict }
  let dataProvs := (provsDict.map Prod.snd).filter Provider.isQueryProvider
  let calls :=
    dataProvs.map RegCall.addDataQueriesToEntities
      ++ [RegCall.addIocQueriesToEntities (get_provider s "TILookup") "ti",
          RegCall.registerPivotsFromConfig "other"]
  (s, calls)

/-- Embeds `Pivot.edit_query_time(units, timespan)`.  After `__init__`,
`self._query_time` is always set (both constructor branches assign it), so
the guard `self._query_time is None or self._query_time.units != units`
reduces to the units comparison.  `display()` does not change state. -/
def edit_query_time (s : PivotState) (now : Int) (units : String)
    (tsArg : Option TimeSpan) : PivotState :=
  let s1 :=
    if s.query_time.units ≠ units then
      { s with query_time := set_default_query_time now units 1 }
    else s
  match tsArg with
  | some ts => { s1 with query_time := QueryTime.fromTimespan ts }
  | none => s1

end Pivot

/-- The list of provider values a namespace argument supplies
(`namespace.values()`), empty for `None`. -/
def nsValues (ns : Option Dict) : List Provider := (ns.getD []).map Prod.snd

/-- The list of providers an explicit `providers` argument supplies,
empty for `None`. -/
def provList (provs : Option (List Provider)) : List Provider := provs.getD []

/-- Model of the Python heap, used only to express object aliasing for the
`providers` property: a store mapping object addresses to dict values. -/
def Store := Nat → Dict

/-- Overwrite the dict object at address `r` (a client mutating a dict it
holds a reference to, e.g. `d["k"] = v` on the dict returned by the
`providers` property). -/
def Store.write (st : Store) (r : Nat) (d : Dict) : Store :=
  fun r' => if r' = r then d else st r'

/-- A `Pivot` object as seen by the heap model: it holds the address of
its `_providers` dict object. -/
structure PivotRef where
  providersAddr : Nat

/-- Embeds the `Pivot.providers` property, whose body is
`return self._providers`: in Python this returns the dict object itself
(its reference), not a copy, so the model returns the address. -/
def Pivot.providers_property (p : PivotRef) : Nat := p.providersAddr

/-- Embeds `Pivot.get_provider(name)` in the heap model:
`self._providers.get(name)` reads the dict object at the stored address. -/
def Pivot.get_provider_heap (st : Store) (p : PivotRef) (name : String) :
    Option Provider :=
  dictGet (st p.providersAddr) name

/-! ### Dictionary lemmas -/

theorem dictGet_dictInsert (d : Dict) (k : String) (v : Provider) (k' : String) :
    dictGet (dictInsert d k v) k' = if k' = k then some v else dictGet d k' := by
  induction d with
  | nil => by_cases h' : k' = k <;> simp [dictInsert, dictGet, h']
  | cons e d ih =>
    obtain ⟨k₀, v₀⟩ := e
    simp only [dictInsert]
    by_cases h : k₀ = k
    · subst h
      by_cases h' : k' = k₀ <;> simp [dictGet, h']
    · simp only [if_neg h, dictGet]
      by_cases h' : k' = k₀
      · subst h'
        simp [h]
      · simp [h', ih]

theorem dictGet_dictUpdate (es : List (String × Provider)) (d : Dict) (k : String) :
    dictGet (dictUpdate d es) k =
      match lookupLast es k with
      | some v => some v
      | none => dictGet d k := by
  induction es generalizing d with
  | nil => simp [dictUpdate, lookupLast]
  | cons e es ih =>
    show dictGet (dictUpdate (dictInsert d e.1 e.2) es) k = _
    rw [ih]
    cases h : lookupLast es k with
    | some v => simp [lookupLast, h]
    | none =>
      simp only [lookupLast, h, dictGet_dictInsert]
      by_cases h' : e.1 = k
      · subst h'
        simp
      · have h'' : ¬ k = e.1 := fun hh => h' hh.symm
        simp [h', h'']

theorem dictGet_dictUpdate_of_some {es : List (String × Provider)} {d : Dict}
    {k : String} {v : Provider} (h : lookupLast es k = some v) :
    dictGet (dictUpdate d es) k = some v := by
  rw [dictGet_dictUpdate, h]

theorem dictGet_dictUpdate_of_none {es : List (String × Provider)} {d : Dict}
    {k : String} (h : lookupLast es k = none) :
    dictGet (dictUpdate d es) k = dictGet d k := by
  rw [dictGet_dictUpdate, h]

theorem dictKeys_dictInsert (d : Dict) (k : String) (v : Provider) :
    dictKeys (dictInsert d k v) =
      if k ∈ dictKeys d then dictKeys d else dictKeys d ++ [k] := by
  induction d with
  | nil => simp [dictInsert, dictKeys]
  | cons e d ih =>
    obtain ⟨k₀, v₀⟩ := e
    by_cases h : k₀ = k
    · subst h
      simp [dictInsert, dictKeys]
    · simp only [dictInsert, if_neg h, dictKeys, List.map_cons] at ih ⊢
      rw [ih]
      have hne : ¬ k = k₀ := fun hh => h hh.symm
      by_cases hmem : k ∈ d.map Prod.fst <;>
        simp [hmem, List.mem_cons, hne]

theorem dictKeys_nodup_dictInsert {d : Dict} (hd : (dictKeys d).Nodup)
    (k : String) (v : Provider) : (dictKeys (dictInsert d k v)).Nodup := by
  rw [dictKeys_dictInsert]
  by_cases hmem : k ∈ dictKeys d
  · simpa [hmem] using hd
  · simp [hmem, List.nodup_append, hd]

theorem dictKeys_nodup_dictUpdate (es : List (String × Provider)) {d : Dict}
    (hd : (dictKeys d).Nodup) : (dictKeys (dictUpdate d es)).Nodup := by
  induction es generalizing d with
  | nil => exact hd
  | cons e es ih =>
    exact ih (dictKeys_nodup_dictInsert hd e.1 e.2)

/-! ### Provider discovery lemmas -/

theorem filter_head?_sat (f : Provider → Bool) (l : List Provider) (p : Provider)
    (h : (l.filter f).head? = some p) : f p = true := by
  cases hf : l.filter f with
  | nil => rw [hf] at h; simp at h
  | cons q t =>
    rw [hf] at h
    simp only [List.head?_cons, Option.some.injEq] at h
    subst h
    have hq : q ∈ l.filter f := by rw [hf]; exact List.mem_cons_self _ _
    exact (List.mem_filter.mp hq).2

theorem filter_getLast?_sat (f : Provider → Bool) (l : List Provider) (p : Provider)
    (h : (l.filter f).getLast? = some p) : f p = true := by
  obtain ⟨hne, rfl⟩ := List.mem_getLast?_eq_getLast h
  exact (List.mem_filter.mp (List.getLast_mem hne)).2

theorem ti_from_providers_isTI {provs : Option (List Provider)} {p : Provider}
    (h : Pivot.ti_from_providers provs = some p) : p.isTILookup = true := by
  cases provs with
  | none => simp [Pivot.ti_from_providers] at h
  | some l =>
    by_cases he : l.isEmpty
    · simp [Pivot.ti_from_providers, he] at h
    · simp only [Pivot.ti_from_providers, if_neg he] at h
      exact filter_head?_sat _ _ _ h

theorem ti_from_namespace_isTI {ns : Option Dict} {p : Provider}
    (h : Pivot.ti_from_namespace ns = some p) : p.isTILookup = true := by
  cases ns with
  | none => simp [Pivot.ti_from_namespace] at h
  | some nsd =>
    by_cases he : nsd.isEmpty
    · simp [Pivot.ti_from_namespace, he] at h
    · simp only [Pivot.ti_from_namespace, if_neg he] at h
      exact filter_getLast?_sat _ _ _ h

theorem get_provider_by_type_isTI {ns : Option Dict} {provs : Option (List Provider)}
    {p : Provider} (h : Pivot.get_provider_by_type ns provs = some p) :
    p.isTILookup = true := by
  unfold Pivot.get_provider_by_type at h
  cases hp : Pivot.ti_from_providers provs with
  | some q =>
    rw [hp] at h
    simp only [Option.some.injEq] at h
    subst h
    exact ti_from_providers_isTI hp
  | none =>
    rw [hp] at h
    exact ti_from_namespace_isTI h

theorem tiValue_isTI (ns : Option Dict) (provs : Option (List Provider)) :
    ((Pivot.get_provider_by_type ns provs).getD Pivot.defaultTILookup).isTILookup
      = true := by
  cases h : Pivot.get_provider_by_type ns provs with
  | some p => simpa using get_provider_by_type_isTI h
  | none => simp [Pivot.defaultTILookup, Provider.isTILookup]

/-- The registry produced by `_get_all_providers` maps "TILookup" to the
value chosen by `_get_provider_by_type` (or the freshly constructed
default). -/
theorem get_all_providers_tiKey (ns : Option Dict) (provs : Option (List Provider)) :
    dictGet (Pivot.get_all_providers ns provs) "TILookup" =
      some ((Pivot.get_provider_by_type ns provs).getD Pivot.defaultTILookup) := by
  unfold Pivot.get_all_providers
  rw [dictGet_dictInsert]
  simp

/-- At keys other than "TILookup", the registry produced by
`_get_all_providers` agrees with the query-provider collection step. -/
theorem get_all_providers_otherKey (ns : Option Dict) (provs : Option (List Provider))
    {k : String} (hk : k ≠ "TILookup") :
    dictGet (Pivot.get_all_providers ns provs) k =
      dictGet (Pivot.get_query_providers [] ns provs) k := by
  unfold Pivot.get_all_providers
  rw [dictGet_dictInsert, if_neg hk]

/-! ### Query-provider collection lemmas -/

theorem qpEntries_nil_of_filter {xs : List Provider}
    (h : xs.filter Provider.isQueryProvider = []) : Pivot.qpEntries xs = [] := by
  simp [Pivot.qpEntries, h]

theorem get_query_providers_noQP (d : Dict) {ns : Option Dict}
    {provs : Option (List Provider)}
    (h1 : Pivot.qpEntries (nsValues ns) = [])
    (h2 : Pivot.qpEntries (provList provs) = []) :
    Pivot.get_query_providers d ns provs = d := by
  unfold Pivot.get_query_providers
  cases ns with
  | none =>
    cases provs with
    | none => rfl
    | some l =>
      have h2' : Pivot.qpEntries l = [] := h2
      by_cases he : l.isEmpty <;> simp [he, h2', dictUpdate]
  | some nsd =>
    have h1' : Pivot.qpEntries (nsd.map Prod.snd) = [] := h1
    cases provs with
    | none => by_cases he : nsd.isEmpty <;> simp [he, h1', dictUpdate]
    | some l =>
      have h2' : Pivot.qpEntries l = [] := h2
      by_cases he : nsd.isEmpty <;> by_cases he2 : l.isEmpty <;>
        simp [he, he2, h1', h2', dictUpdate]

theorem get_query_providers_provs_some {d : Dict} {ns : Option Dict}
    {l : List Provider} {k : String} {v : Provider}
    (h : lookupLast (Pivot.qpEntries l) k = some v) :
    dictGet (Pivot.get_query_providers d ns (some l)) k = some v := by
  cases l with
  | nil => simp [Pivot.qpEntries, lookupLast] at h
  | cons a as =>
    unfold Pivot.get_query_providers
    simp only [List.isEmpty_cons, Bool.false_eq_true, if_false]
    exact dictGet_dictUpdate_of_some h

theorem get_query_providers_ns_only (d : Dict) (nsd : Dict) (k : String) :
    dictGet (Pivot.get_query_providers d (some nsd) none) k =
      match lookupLast (Pivot.qpEntries (nsd.map Prod.snd)) k with
      | some v => some v
      | none => dictGet d k := by
  unfold Pivot.get_query_providers
  cases nsd with
  | nil => simp [Pivot.qpEntries, lookupLast]
  | cons e nsd' =>
    simp only [List.isEmpty_cons, Bool.false_eq_true, if_false]
    exact dictGet_dictUpdate _ _ _

theorem get_query_providers_provs_only (d : Dict) (l : List Provider) (k : String) :
    dictGet (Pivot.get_query_providers d none (some l)) k =
      match lookupLast (Pivot.qpEntries l) k with
      | some v => some v
      | none => dictGet d k := by
  unfold Pivot.get_query_providers
  cases l with
  | nil => simp [Pivot.qpEntries, lookupLast]
  | cons a as =>
    simp only [List.isEmpty_cons, Bool.false_eq_true, if_false]
    exact dictGet_dictUpdate _ _ _

theorem get_query_providers_nodup (d : Dict) (hd : (dictKeys d).Nodup)
    (ns : Option Dict) (provs : Option (List Provider)) :
    (dictKeys (Pivot.get_query_providers d ns provs)).Nodup := by
  unfold Pivot.get_query_providers
  cases ns with
  | none =>
    cases provs with
    | none => exact hd
    | some l =>
      by_cases he : l.isEmpty <;> simp [he, hd, dictKeys_nodup_dictUpdate _ hd]
  | some nsd =>
    by_cases he : nsd.isEmpty
    · cases provs with
      | none => simp [he, hd]
      | some l =>
        by_cases he2 : l.isEmpty <;>
          simp [he, he2, hd, dictKeys_nodup_dictUpdate _ hd]
    · have h1 : (dictKeys (dictUpdate d (Pivot.qpEntries (nsd.map Prod.snd)))).Nodup :=
        dictKeys_nodup_dictUpdate _ hd
      cases provs with
      | none => simp [he, h1]
      | some l =>
        by_cases he2 : l.isEmpty <;>
          simp [he, he2, h1, dictKeys_nodup_dictUpdate _ h1]

/-- When the explicit list holds TI-lookup instances, the registry's
"TILookup" entry is the FIRST of them, whatever the namespace holds. -/
theorem ti_value_of_provs_filter (ns : Option Dict) {l : List Provider}
    (hti : l.filter Provider.isTILookup ≠ []) :
    dictGet (Pivot.get_all_providers ns (some l)) "TILookup"
      = (l.filter Provider.isTILookup).head? := by
  rw [get_all_providers_tiKey]
  have hl : ¬ l.isEmpty = true := by
    cases l with
    | nil => simp at hti
    | cons a as => simp
  have hp : Pivot.ti_from_providers (some l)
      = (l.filter Provider.isTILookup).head? := by
    simp [Pivot.ti_from_providers, hl]
  cases hh : (l.filter Provider.isTILookup).head? with
  | none =>
    rw [List.head?_eq_none_iff] at hh
    exact absurd hh hti
  | some p => simp [Pivot.get_provider_by_type, hp, hh]

/-- When the namespace holds TI-lookup instances and no explicit list is
given, the registry's "TILookup" entry is the LAST of them. -/
theorem ti_value_of_ns_filter {nsd : Dict}
    (hti : (nsd.map Prod.snd).filter Provider.isTILookup ≠ []) :
    dictGet (Pivot.get_all_providers (some nsd) none) "TILookup"
      = ((nsd.map Prod.snd).filter Provider.isTILookup).getLast? := by
  rw [get_all_providers_tiKey]
  have hne : ¬ nsd.isEmpty = true := by
    cases nsd with
    | nil => simp at hti
    | cons a as => simp
  have hn : Pivot.ti_from_namespace (some nsd)
      = ((nsd.map Prod.snd).filter Provider.isTILookup).getLast? := by
    simp [Pivot.ti_from_namespace, hne]
  cases hh : ((nsd.map Prod.snd).filter Provider.isTILookup).getLast? with
  | none =>
    rw [List.getLast?_eq_none_iff] at hh
    exact absurd hh hti
  | some p =>
    simp [Pivot.get_provider_by_type, Pivot.ti_from_providers, hn, hh]

/-! ### Claim theorems -/

/-- C1: assigning a new `TimeSpan` through the `timespan` setter changes
the values returned by all subsequent reads of `start`, `end`, `timespan`
and of the `_get_timespan` accessor handed to the registration helpers at
construction (the accessor reads the state current at call time, always
returning the current span, never a registration-time snapshot), and the
setter performs no registration-helper call. -/
theorem C1_timespan_setter_lazy (s : PivotState) (ts : TimeSpan) :
    Pivot.start (Pivot.timespan_set s ts).1 = ts.start ∧
    Pivot.«end» (Pivot.timespan_set s ts).1 = ts.«end» ∧
    Pivot.timespan (Pivot.timespan_set s ts).1 = ts ∧
    Pivot.get_timespan (Pivot.timespan_set s ts).1 = ts ∧
    Pivot.get_timespan s = Pivot.timespan s ∧
    (Pivot.timespan_set s ts).2 = [] :=
  ⟨rfl, rfl, rfl, rfl, rfl, rfl⟩

/-- C7: constructing a `Pivot` with no timespan argument yields the
default rolling window of 1 day ending at the construction-time "now":
`start = now - 1 day` and `end = now`, with units "day". -/
theorem C7_default_rolling_day (ns : Option Dict) (provs : Option (List Provider))
    (now : Int) :
    Pivot.start (Pivot.init ns provs none now).1 = now - 86400 ∧
    Pivot.«end» (Pivot.init ns provs none now).1 = now ∧
    (Pivot.init ns provs none now).1.query_time.units = "day" := by
  have hday : unitSeconds "day" = (86400 : Int) := by decide
  refine ⟨?_, ?_, rfl⟩ <;>
    simp [Pivot.init, Pivot.set_default_query_time, QueryTime.fromOrigin,
      Pivot.start, Pivot.«end», hday]

/-- C5: when neither the namespace nor the explicit provider list holds a
TI-lookup instance, a default `TILookup()` instance is constructed and
stored in the registry under the "TILookup" key. -/
theorem C5_default_tiLookup_created (ns : Option Dict)
    (provs : Option (List Provider))
    (h1 : (nsValues ns).filter Provider.isTILookup = [])
    (h2 : (provList provs).filter Provider.isTILookup = []) :
    dictGet (Pivot.get_all_providers ns provs) "TILookup"
      = some Pivot.defaultTILookup := by
  have hp : Pivot.ti_from_providers provs = none := by
    cases provs with
    | none => rfl
    | some l =>
      have h2' : l.filter Provider.isTILookup = [] := h2
      by_cases he : l.isEmpty <;> simp [Pivot.ti_from_providers, he, h2']
  have hn : Pivot.ti_from_namespace ns = none := by
    cases ns with
    | none => rfl
    | some nsd =>
      have h1' : (nsd.map Prod.snd).filter Provider.isTILookup = [] := h1
      by_cases he : nsd.isEmpty <;> simp [Pivot.ti_from_namespace, he, h1']
  rw [get_all_providers_tiKey]
  simp [Pivot.get_provider_by_type, hp, hn]

/-- C5 witness: a construction with a query provider in the namespace and
a non-provider object in the explicit list gets the default TI lookup. -/
theorem C5_witness :
    dictGet
      (Pivot.get_all_providers
        (some [("qp", Provider.queryProvider "AzureSentinel" 1)])
        (some [Provider.otherObj 5]))
      "TILookup" = some Pivot.defaultTILookup :=
  C5_default_tiLookup_created
    (some [("qp", Provider.queryProvider "AzureSentinel" 1)])
    (some [Provider.otherObj 5]) (by decide) (by decide)

/-- C9: every constructed `Pivot` has a registry entry for "TILookup"
holding a TI-lookup instance (so `get_provider("TILookup")` is never
`None`), and the state-modifying operations after construction (the
`timespan` setter and `edit_query_time`) leave the registry untouched. -/
theorem C9_tiLookup_key_invariant (ns : Option Dict)
    (provs : Option (List Provider)) (tsArg : Option TimeSpan) (now : Int) :
    (∃ p, Pivot.get_provider (Pivot.init ns provs tsArg now).1 "TILookup" = some p
        ∧ p.isTILookup = true) ∧
    (∀ (s : PivotState) (ts : TimeSpan),
      (Pivot.timespan_set s ts).1.providersDict = s.providersDict) ∧
    (∀ (s : PivotState) (now2 : Int) (units : String) (tsArg2 : Option TimeSpan),
      (Pivot.edit_query_time s now2 units tsArg2).providersDict
        = s.providersDict) := by
  refine ⟨⟨_, ?_, tiValue_isTI ns provs⟩, fun s ts => rfl,
    fun s now2 units tsArg2 => ?_⟩
  · exact get_all_providers_tiKey ns provs
  · unfold Pivot.edit_query_time
    cases tsArg2 <;> dsimp only [] <;> split <;> rfl

/-- C6: when neither source supplies a query provider, construction
completes (the embedding of `__init__` is a total function) and the trace
of registration calls contains no `add_data_queries_to_entities` call. -/
theorem C6_no_query_providers_no_data_calls (ns : Option Dict)
    (provs : Option (List Provider)) (tsArg : Option TimeSpan) (now : Int)
    (h1 : (nsValues ns).filter Provider.isQueryProvider = [])
    (h2 : (provList provs).filter Provider.isQueryProvider = []) :
    ((Pivot.init ns provs tsArg now).2.filter RegCall.isDataQueries) = [] := by
  have hq : Pivot.get_query_providers [] ns provs = [] :=
    get_query_providers_noQP [] (qpEntries_nil_of_filter h1)
      (qpEntries_nil_of_filter h2)
  have hreg : Pivot.get_all_providers ns provs
      = [("TILookup", (Pivot.get_provider_by_type ns provs).getD
          Pivot.defaultTILookup)] := by
    unfold Pivot.get_all_providers
    rw [hq]
    rfl
  have hti :
      ((Pivot.get_provider_by_type ns provs).getD
        Pivot.defaultTILookup).isQueryProvider = false := by
    have := tiValue_isTI ns provs
    cases h : (Pivot.get_provider_by_type ns provs).getD Pivot.defaultTILookup with
    | queryProvider e i => rw [h] at this; simp [Provider.isTILookup] at this
    | tiLookup i => simp [Provider.isQueryProvider]
    | otherObj i => rw [h] at this; simp [Provider.isTILookup] at this
  show ((((Pivot.get_all_providers ns provs).map Prod.snd).filter
      Provider.isQueryProvider).map RegCall.addDataQueriesToEntities
        ++ _).filter RegCall.isDataQueries = _
  rw [hreg]
  simp [hti, RegCall.isDataQueries]

/-- C6 witness: a namespace with only a TI-lookup instance and no explicit
providers yields a trace without data-query registration calls. -/
theorem C6_witness :
    ((Pivot.init (some [("ti", Provider.tiLookup 3)]) none none 0).2.filter
      RegCall.isDataQueries) = [] :=
  C6_no_query_providers_no_data_calls (some [("ti", Provider.tiLookup 3)])
    none none 0 (by decide) (by decide)

/-- C10: calling `edit_query_time` with no timespan argument and units
different from the current widget's units replaces the span with a fresh
rolling window of 1 unit back from the current UTC time; with equal units
and no timespan argument the state is unchanged. -/
theorem C10_edit_query_time_units (s : PivotState) (now : Int) (units : String) :
    (s.query_time.units ≠ units →
      Pivot.start (Pivot.edit_query_time s now units none)
          = now - unitSeconds units ∧
      Pivot.«end» (Pivot.edit_query_time s now units none) = now ∧
      (Pivot.edit_query_time s now units none).query_time.units = units) ∧
    (s.query_time.units = units → Pivot.edit_query_time s now units none = s) := by
  constructor
  · intro h
    simp [Pivot.edit_query_time, h, Pivot.set_default_query_time,
      QueryTime.fromOrigin, Pivot.start, Pivot.«end»]
  · intro h
    simp [Pivot.edit_query_time, h]

/-- C10 witness: on a default-constructed state (units "day"), editing
with units "hour" installs a fresh 1-hour rolling window ending at the
given "now", while editing with units "day" leaves the state unchanged. -/
theorem C10_witness :
    Pivot.start (Pivot.edit_query_time (Pivot.init none none none 0).1 100 "hour" none)
        = 100 - 3600 ∧
    Pivot.«end» (Pivot.edit_query_time (Pivot.init none none none 0).1 100 "hour" none)
        = 100 ∧
    Pivot.edit_query_time (Pivot.init none none none 0).1 100 "day" none
        = (Pivot.init none none none 0).1 := by
  have h1 := (C10_edit_query_time_units (Pivot.init none none none 0).1 100 "hour").1
    (by decide)
  have h2 := (C10_edit_query_time_units (Pivot.init none none none 0).1 100 "day").2
    (by decide)
  exact ⟨h1.1.trans (by decide), h1.2.1, h2⟩

/-- C2 counterexample: with a query provider whose `environment` is the
literal string "TILookup" in both sources, the stored entry under the
shared category key is neither source's provider but the freshly built
default TI lookup, so the explicit-list entry does not override. -/
theorem C2_counterexample :
    dictGet (Pivot.get_all_providers
        (some [("a", Provider.queryProvider "TILookup" 1)])
        (some [Provider.queryProvider "TILookup" 2])) "TILookup"
      = some (Provider.tiLookup 0) ∧
    dictGet (Pivot.get_all_providers
        (some [("a", Provider.queryProvider "TILookup" 1)])
        (some [Provider.queryProvider "TILookup" 2])) "TILookup"
      ≠ some (Provider.queryProvider "TILookup" 2) := by
  decide

/-- C2 amended: each shared category key independently. For a category
key other than the literal "TILookup", whenever the explicit list holds a
query provider with that environment, the registry entry is determined by
the explicit list alone (its last query provider with that environment),
whatever the namespace holds; for the TI-lookup key, whenever the
explicit list holds a TI instance, its first TI instance is stored,
whatever the namespace holds. -/
theorem C2_explicit_list_overrides :
    (∀ (ns : Option Dict) (l : List Provider) (k : String), k ≠ "TILookup" →
      lookupLast (Pivot.qpEntries l) k ≠ none →
      dictGet (Pivot.get_all_providers ns (some l)) k
        = lookupLast (Pivot.qpEntries l) k) ∧
    (∀ (ns : Option Dict) (l : List Provider),
      l.filter Provider.isTILookup ≠ [] →
      dictGet (Pivot.get_all_providers ns (some l)) "TILookup"
        = (l.filter Provider.isTILookup).head?) := by
  constructor
  · intro ns l k hk hq
    rw [get_all_providers_otherKey _ _ hk]
    cases h : lookupLast (Pivot.qpEntries l) k with
    | none => exact absurd h hq
    | some v => exact get_query_providers_provs_some h
  · intro ns l hti
    exact ti_value_of_provs_filter ns hti

/-- C2 witness: each conjunct at a concrete input of its own. First, an
explicit list holding only a query provider for environment "E" (no TI
instance) overrides the namespace's provider for "E"; second, an explicit
list holding only a TI instance (no query provider) overrides the
namespace's TI instance. -/
theorem C2_witness :
    dictGet (Pivot.get_all_providers
        (some [("a", Provider.queryProvider "E" 1), ("b", Provider.tiLookup 9)])
        (some [Provider.queryProvider "E" 2])) "E"
      = some (Provider.queryProvider "E" 2) ∧
    dictGet (Pivot.get_all_providers
        (some [("a", Provider.queryProvider "E" 1), ("b", Provider.tiLookup 9)])
        (some [Provider.tiLookup 7])) "TILookup"
      = some (Provider.tiLookup 7) :=
  ⟨(C2_explicit_list_overrides.1
      (some [("a", Provider.queryProvider "E" 1), ("b", Provider.tiLookup 9)])
      [Provider.queryProvider "E" 2] "E" (by decide) (by decide)).trans
        (by decide),
   (C2_explicit_list_overrides.2
      (some [("a", Provider.queryProvider "E" 1), ("b", Provider.tiLookup 9)])
      [Provider.tiLookup 7] (by decide)).trans (by decide)⟩

/-- C3 counterexample: two namespace query providers sharing the
environment "TILookup"; the stored entry under that key is not the later
provider but the default TI lookup that overwrites the key afterwards. -/
theorem C3_counterexample :
    dictGet (Pivot.get_all_providers
        (some [("a", Provider.queryProvider "TILookup" 1),
               ("b", Provider.queryProvider "TILookup" 2)]) none) "TILookup"
      = some (Provider.tiLookup 0) ∧
    dictGet (Pivot.get_all_providers
        (some [("a", Provider.queryProvider "TILookup" 1),
               ("b", Provider.queryProvider "TILookup" 2)]) none) "TILookup"
      ≠ some (Provider.queryProvider "TILookup" 2) := by
  decide

/-- C3 amended: for every environment key other than the literal
"TILookup", the registry entry after a namespace-only construction is the
namespace's last (in iteration order) query provider with that
environment. -/
theorem C3_later_namespace_qp_wins (nsd : Dict) (k : String)
    (hk : k ≠ "TILookup") :
    dictGet (Pivot.get_all_providers (some nsd) none) k
      = lookupLast (Pivot.qpEntries (nsd.map Prod.snd)) k := by
  rw [get_all_providers_otherKey _ _ hk, get_query_providers_ns_only]
  cases h : lookupLast (Pivot.qpEntries (nsd.map Prod.snd)) k with
  | none => simp [dictGet]
  | some v => simp

/-- C3 witness: two namespace query providers with the same environment
"E"; the later one is stored. -/
theorem C3_witness :
    dictGet (Pivot.get_all_providers
        (some [("a", Provider.queryProvider "E" 1),
               ("b", Provider.queryProvider "E" 2)]) none) "E"
      = some (Provider.queryProvider "E" 2) := by
  have h := C3_later_namespace_qp_wins
    [("a", Provider.queryProvider "E" 1), ("b", Provider.queryProvider "E" 2)]
    "E" (by decide)
  exact h.trans (by decide)

/-- C4 counterexample: an explicit list with two TI-lookup instances;
`_get_provider_by_type` takes `ti_provs[0]`, so the FIRST instance is
stored, not the last as the claim states. -/
theorem C4_counterexample :
    dictGet (Pivot.get_all_providers none
        (some [Provider.tiLookup 1, Provider.tiLookup 2])) "TILookup"
      = some (Provider.tiLookup 1) ∧
    dictGet (Pivot.get_all_providers none
        (some [Provider.tiLookup 1, Provider.tiLookup 2])) "TILookup"
      ≠ some (Provider.tiLookup 2) := by
  decide

/-- C4 amended: the registry holds at most one entry per key, and within
a single source the last assignment wins for query-provider keys other
than the literal "TILookup" (in both sources) and for TI instances from
the namespace; for TI instances from the explicit list the FIRST one
wins. -/
theorem C4_last_wins_per_source :
    (∀ (ns : Option Dict) (provs : Option (List Provider)),
      (dictKeys (Pivot.get_all_providers ns provs)).Nodup) ∧
    (∀ (nsd : Dict) (k : String), k ≠ "TILookup" →
      dictGet (Pivot.get_all_providers (some nsd) none) k
        = lookupLast (Pivot.qpEntries (nsd.map Prod.snd)) k) ∧
    (∀ (l : List Provider) (k : String), k ≠ "TILookup" →
      dictGet (Pivot.get_all_providers none (some l)) k
        = lookupLast (Pivot.qpEntries l) k) ∧
    (∀ l : List Provider, l.filter Provider.isTILookup ≠ [] →
      dictGet (Pivot.get_all_providers none (some l)) "TILookup"
        = (l.filter Provider.isTILookup).head?) ∧
    (∀ nsd : Dict, (nsd.map Prod.snd).filter Provider.isTILookup ≠ [] →
      dictGet (Pivot.get_all_providers (some nsd) none) "TILookup"
        = ((nsd.map Prod.snd).filter Provider.isTILookup).getLast?) := by
  refine ⟨?_, ?_, ?_, ?_, ?_⟩
  · intro ns provs
    unfold Pivot.get_all_providers
    exact dictKeys_nodup_dictInsert
      (get_query_providers_nodup [] (by simp [dictKeys]) ns provs) _ _
  · intro nsd k hk
    rw [get_all_providers_otherKey _ _ hk, get_query_providers_ns_only]
    cases h : lookupLast (Pivot.qpEntries (nsd.map Prod.snd)) k with
    | none => simp [dictGet]
    | some v => simp
  · intro l k hk
    rw [get_all_providers_otherKey _ _ hk, get_query_providers_provs_only]
    cases h : lookupLast (Pivot.qpEntries l) k with
    | none => simp [dictGet]
    | some v => simp
  · intro l hti
    exact ti_value_of_provs_filter none hti
  · intro nsd hti
    exact ti_value_of_ns_filter hti

/-- C4 witness: concrete instances of each amended conjunct. -/
theorem C4_witness :
    (dictKeys (Pivot.get_all_providers none (some [Provider.tiLookup 1]))).Nodup ∧
    dictGet (Pivot.get_all_providers
        (some [("a", Provider.queryProvider "F" 3),
               ("b", Provider.queryProvider "F" 4)]) none) "F"
      = some (Provider.queryProvider "F" 4) ∧
    dictGet (Pivot.get_all_providers none
        (some [Provider.queryProvider "G" 5, Provider.queryProvider "G" 6])) "G"
      = some (Provider.queryProvider "G" 6) ∧
    dictGet (Pivot.get_all_providers none
        (some [Provider.tiLookup 1, Provider.tiLookup 2])) "TILookup"
      = some (Provider.tiLookup 1) ∧
    dictGet (Pivot.get_all_providers
        (some [("x", Provider.tiLookup 5), ("y", Provider.tiLookup 6)]) none)
        "TILookup"
      = some (Provider.tiLookup 6) :=
  ⟨C4_last_wins_per_source.1 none (some [Provider.tiLookup 1]),
    (C4_last_wins_per_source.2.1 _ "F" (by decide)).trans (by decide),
    (C4_last_wins_per_source.2.2.1 _ "G" (by decide)).trans (by decide),
    (C4_last_wins_per_source.2.2.2.1 _ (by decide)).trans (by decide),
    (C4_last_wins_per_source.2.2.2.2 _ (by decide)).trans (by decide)⟩

/-- C8 counterexample: mutating the dict object returned by the
`providers` property (here: adding key "X" through the returned
reference) changes the result of a subsequent `get_provider("X")` from
`None` to the added provider — the returned mapping is not a read-only
view. -/
theorem C8_counterexample :
    (Pivot.get_provider_heap (fun _ => [("TILookup", Provider.tiLookup 0)])
        ⟨0⟩ "X" = none) ∧
    (Pivot.get_provider_heap
        (Store.write (fun _ => [("TILookup", Provider.tiLookup 0)])
          (Pivot.providers_property ⟨0⟩)
          (dictInsert [("TILookup", Provider.tiLookup 0)] "X"
            (Provider.queryProvider "X" 7)))
        ⟨0⟩ "X" = some (Provider.queryProvider "X" 7)) :=
  ⟨rfl, rfl⟩

/-- C8 amended: the `providers` property returns the internal provider
dict object itself (the same reference, not a copy): an item assignment
performed through the returned reference is visible to every subsequent
`get_provider` call. -/
theorem C8_providers_is_alias (st : Store) (p : PivotRef) (k : String)
    (v : Provider) :
    Pivot.providers_property p = p.providersAddr ∧
    Pivot.get_provider_heap
        (Store.write st (Pivot.providers_property p)
          (dictInsert (st (Pivot.providers_property p)) k v)) p k = some v := by
  refine ⟨rfl, ?_⟩
  unfold Pivot.get_provider_heap Store.write Pivot.providers_property
  simp [dictGet_dictInsert]

end MsticpyPivot
